import Mathlib

/-!
# Accelerator convolution kernels (`conv_cudnn_op.cu.cc`)

A shallow embedding of `CUDNNConvOpKernel::Compute` (forward convolution) and
`CUDNNConvGradOpKernel::Compute` (backward data / backward weights) together
with the properties of their workspace policy, grouped execution and vendor
call sequence.

The vendor library is an oracle (`MIOpen`) giving the answer of every library
call; every call the kernel issues is appended to a trace of `Event`s, and a
failed `PADDLE_ENFORCE` ends the invocation with an error, the trace issued so
far being kept.
-/

namespace paddle.operators

/-! ## Machine integers -/

/-- Conversion of an integer value to a 32-bit signed `int` (two's complement). -/
def toInt32 (x : Int) : Int := (x + 2147483648) % 4294967296 - 2147483648

/-- Conversion of an integer value to `int64_t` (two's complement). -/
def toInt64 (x : Int) : Int :=
  (x + 9223372036854775808) % 18446744073709551616 - 9223372036854775808

/-- Conversion of an integer value to the 64-bit unsigned `size_t`. -/
def toSizeT (x : Int) : Nat := (x % 18446744073709551616).toNat

/-- Line 39: `static_cast<size_t>(1024) * 1024 * 1024`. -/
def kCONV_CUDNN_WORKSPACE_LIMIT_BYTES : Nat :=
  toSizeT (((toSizeT (((toSizeT 1024 : Nat) : Int) * 1024) : Nat) : Int) * 1024)

/-- Lines 56-57 and 180-181:
`int64_t user_workspace_size = static_cast<size_t>(ctx.Attr<int>("workspace_size_MB"))`. -/
def user_workspace_size (workspace_size_MB : Int) : Int :=
  toInt64 (toSizeT workspace_size_MB)

/-- Lines 120-123 of the forward kernel: the default ceiling, replaced by
`user_workspace_size * 1024 * 1024` (an `int64_t` product stored in a `size_t`)
when the user value is positive. -/
def CUDNNConvOpKernel.workspace_size_limit (workspace_size_MB : Int) : Nat :=
  if user_workspace_size workspace_size_MB > 0 then
    toSizeT (toInt64 (toInt64 (user_workspace_size workspace_size_MB * 1024) * 1024))
  else kCONV_CUDNN_WORKSPACE_LIMIT_BYTES

/-- Lines 243-246 of the backward kernel, the same computation as in the forward kernel. -/
def CUDNNConvGradOpKernel.workspace_size_limit (workspace_size_MB : Int) : Nat :=
  if user_workspace_size workspace_size_MB > 0 then
    toSizeT (toInt64 (toInt64 (user_workspace_size workspace_size_MB * 1024) * 1024))
  else kCONV_CUDNN_WORKSPACE_LIMIT_BYTES

/-! ## Tensors and the execution context -/

/-- A tensor as far as the kernels look at it: its `dims()` (a sequence of `int64_t` extents). -/
structure Tensor where
  dims : List Int
deriving DecidableEq, Repr

/-- Modelled from the spec: the extent `dims()[i]` of a shape, an ordered sequence of
dimension extents (`ddim.h`, outside the excerpt).  The kernels only receive 4-D and 5-D
tensors (enforced by shape inference); an extent outside the shape reads as `0`. -/
def Tensor.dim (t : Tensor) (i : Nat) : Int := t.dims.getD i 0

/-- Modelled from the spec: `Tensor::numel()` (declared in `tensor.h`, which is not part of
the excerpt) is the element count of the buffer, the product of the dimension extents. -/
def Tensor.numel (t : Tensor) : Int := t.dims.prod

/-- What the kernels read from `framework::ExecutionContext`: the placement predicate, the
tensors and the attributes `groups` and `workspace_size_MB`.  `InputGrad` and `FilterGrad`
are the gradient outputs of the backward kernel, `none` when the caller did not request
them (a null pointer in the source). -/
structure ExecutionContext where
  is_gpu_place : Bool
  Input : Tensor
  Filter : Tensor
  Output : Tensor
  OutputGrad : Tensor
  InputGrad : Option Tensor
  FilterGrad : Option Tensor
  groups : Int
  workspace_size_MB : Int
deriving DecidableEq, Repr

/-! ## The vendor library -/

/-- Return code of a vendor call; `miopenStatusSuccess` is `0`. -/
abbrev miopenStatus_t := Nat

def miopenStatusSuccess : miopenStatus_t := 0

/-- Modelled from the spec: `miopenConvAlgoPerf_t` (vendor header, not part of the excerpt),
the result of a find-algorithm query: the selected algorithm for each direction and the
workspace usage the query reports (`memory`). -/
structure miopenConvAlgoPerf_t where
  fwd_algo : Nat
  bwd_data_algo : Nat
  bwd_weights_algo : Nat
  memory : Nat
deriving DecidableEq, Repr

/-- The answers of the vendor library during one kernel invocation.  The find-algorithm
queries and the compute primitives are indexed by the loop counter `i` of the group loop
in which they are called. -/
structure MIOpen where
  SetConvolutionGroupCount : Int → miopenStatus_t
  ConvolutionForwardGetWorkSpaceSize : miopenStatus_t × Nat
  ConvolutionBackwardDataGetWorkSpaceSize : miopenStatus_t × Nat
  ConvolutionBackwardWeightsGetWorkSpaceSize : miopenStatus_t × Nat
  FindConvolutionForwardAlgorithm : Int → miopenStatus_t × miopenConvAlgoPerf_t
  ConvolutionForward : Int → miopenStatus_t
  FindConvolutionBackwardDataAlgorithm : Int → miopenStatus_t × miopenConvAlgoPerf_t
  ConvolutionBackwardData : Int → miopenStatus_t
  FindConvolutionBackwardWeightsAlgorithm : Int → miopenStatus_t × miopenConvAlgoPerf_t
  ConvolutionBackwardWeights : Int → miopenStatus_t

/-! ## Traces -/

/-- The output tensors a kernel obtains a mutable buffer of. -/
inductive OutputVar where
  | Output
  | InputGrad
  | FilterGrad
deriving DecidableEq, Repr

/-- One externally visible action of a kernel invocation.  Pointer arguments are recorded
as element offsets from the base of the buffer they point into. -/
inductive Event where
  /-- Call of `mutable_data<T>(ctx.GetPlace())` on an output tensor: the buffer the result is
  written to; the storage of tensors is managed by the framework (`tensor.h`, outside the
  excerpt). -/
  | MutableData (v : OutputVar)
  /-- Call of `conv_desc.descriptor<T>(paddings, strides, dilations)`. -/
  | ConvolutionDescriptor
  /-- Call of `miopenSetConvolutionGroupCount(cudnn_conv_desc, groups)`. -/
  | SetConvolutionGroupCount (groups : Int)
  /-- Call of `ScopedTensorDescriptor::descriptor<T>(layout, dims, groups)`. -/
  | TensorDescriptor (dims : List Int) (groups : Int)
  /-- Call of `ScopedFilterDescriptor::descriptor<T>(layout, dims, groups)`. -/
  | FilterDescriptor (dims : List Int) (groups : Int)
  | ConvolutionForwardGetWorkSpaceSize
  | ConvolutionBackwardDataGetWorkSpaceSize
  | ConvolutionBackwardWeightsGetWorkSpaceSize
  /-- Call of `paddle::memory::Alloc(gpu, size)`. -/
  | Alloc (size : Nat)
  /-- Call of `paddle::memory::Free(gpu, cudnn_workspace)`. -/
  | Free
  | FindConvolutionForwardAlgorithm (x w y : Int) (requestAlgoCount : Int) (workSpaceSize : Nat)
  | ConvolutionForward (x w y : Int) (algo : Nat) (workSpaceSize : Nat)
  | FindConvolutionBackwardDataAlgorithm (dy w dx : Int) (requestAlgoCount : Int)
      (workSpaceSize : Nat)
  | ConvolutionBackwardData (dy w dx : Int) (algo : Nat) (workSpaceSize : Nat)
  | FindConvolutionBackwardWeightsAlgorithm (dy x dw : Int) (requestAlgoCount : Int)
      (workSpaceSize : Nat)
  | ConvolutionBackwardWeights (dy x dw : Int) (algo : Nat) (workSpaceSize : Nat)
deriving DecidableEq, Repr

/-- The fatal conditions of section 7 of the specification; in the source each is an
exception thrown by a failed `PADDLE_ENFORCE`. -/
inductive KernelError where
  | InvalidPlacement
  | WorkspaceExceeded
  | LibraryCallFailure
deriving DecidableEq, Repr

/-- A kernel computation: its result (a value, or the error that ended it) and the trace of
the actions issued until then. -/
structure K (α : Type) where
  result : Except KernelError α
  trace : List Event

/-- A computation that ended normally with value `a` after issuing the actions `t`. -/
def K.ok {α : Type} (a : α) (t : List Event) : K α := ⟨Except.ok a, t⟩

/-- A computation ended by the exception `e` after issuing the actions `t`. -/
def K.raise {α : Type} (e : KernelError) (t : List Event) : K α := ⟨Except.error e, t⟩

/-- Sequencing: an error ends the computation, otherwise the traces are concatenated. -/
def K.bind {α β : Type} (m : K α) (f : α → K β) : K β :=
  match m.result with
  | Except.error e => K.raise e m.trace
  | Except.ok a => ⟨(f a).result, m.trace ++ (f a).trace⟩

instance : Monad K where
  pure a := K.ok a []
  bind := K.bind

/-- Record one action in the trace. -/
def emit (e : Event) : K Unit := K.ok () [e]

/-- Modelled from the spec: the macro `PADDLE_ENFORCE` and its comparison variants
`PADDLE_ENFORCE_LE` and `PADDLE_ENFORCE_GT` (`platform/enforce.h`, outside the excerpt).
Nothing happens when the condition holds; otherwise the whole invocation is aborted with a
fatal condition (section 7), in the source an exception thrown at that point. -/
def PADDLE_ENFORCE (cond : Bool) (err : KernelError) : K Unit :=
  if cond then K.ok () [] else K.raise err []

/-! ## The forward kernel -/

/-- The group count and the per-group element strides a kernel works with after the
descriptors are built. -/
structure GroupLayout where
  groups : Int
  group_offset_in : Int
  group_offset_out : Int
  group_offset_filter : Int
deriving DecidableEq, Repr

/-- Lines 89-99 and 112-113 of `CUDNNConvOpKernel::Compute`: `group_offset_in`, a product
of 32-bit `int`s, for the value `groups` the local variable has at that point. -/
def CUDNNConvOpKernel.group_offset_in (ctx : ExecutionContext) (groups : Int) : Int :=
  let input_channels := toInt32 (ctx.Input.dim 1)
  let input_depth := if ctx.Input.dims.length = 5 then toInt32 (ctx.Input.dim 2) else 1
  let input_height :=
    if ctx.Input.dims.length = 5 then toInt32 (ctx.Input.dim 3) else toInt32 (ctx.Input.dim 2)
  let input_width :=
    if ctx.Input.dims.length = 5 then toInt32 (ctx.Input.dim 4) else toInt32 (ctx.Input.dim 3)
  toInt32 (toInt32 (toInt32 (Int.tdiv input_channels groups * input_height) * input_width)
    * input_depth)

/-- Lines 100-110 and 114-115: `group_offset_out`; the channel count is read from the
filter, the spatial extents from the output. -/
def CUDNNConvOpKernel.group_offset_out (ctx : ExecutionContext) (groups : Int) : Int :=
  let output_channels := toInt32 (ctx.Filter.dim 0)
  let output_depth := if ctx.Output.dims.length = 5 then toInt32 (ctx.Output.dim 2) else 1
  let output_height :=
    if ctx.Output.dims.length = 5 then toInt32 (ctx.Output.dim 3) else toInt32 (ctx.Output.dim 2)
  let output_width :=
    if ctx.Output.dims.length = 5 then toInt32 (ctx.Output.dim 4) else toInt32 (ctx.Output.dim 3)
  toInt32 (toInt32 (toInt32 (Int.tdiv output_channels groups * output_height) * output_width)
    * output_depth)

/-- Line 116: `int group_offset_filter = filter->numel() / groups` (an `int64_t` quotient
stored in an `int`). -/
def CUDNNConvOpKernel.group_offset_filter (ctx : ExecutionContext) (groups : Int) : Int :=
  toInt32 (Int.tdiv ctx.Filter.numel groups)

/-- Lines 76-80 and 112-116 of `CUDNNConvOpKernel::Compute`: once the caller's group count
has been handed to the vendor library (`#if 1`) the local `groups` is `1`, and the strides
are computed with it. -/
def CUDNNConvOpKernel.layout (ctx : ExecutionContext) : GroupLayout :=
  let groups : Int := 1
  { groups := groups
    group_offset_in := CUDNNConvOpKernel.group_offset_in ctx groups
    group_offset_out := CUDNNConvOpKernel.group_offset_out ctx groups
    group_offset_filter := CUDNNConvOpKernel.group_offset_filter ctx groups }

/-- Lines 140-154: the group loop `for (int i = 0; i < groups; i++)`, entered at counter
`i` with `n` iterations left.  `ws` is `workspace_size_in_bytes`. -/
def CUDNNConvOpKernel.group_loop (lib : MIOpen) (l : GroupLayout) (ws : Nat) :
    Nat → Int → K Unit
  | 0, _ => pure ()
  | n + 1, i => do
    emit (Event.FindConvolutionForwardAlgorithm (toInt32 (i * l.group_offset_in))
      (toInt32 (i * l.group_offset_filter)) (toInt32 (i * l.group_offset_out)) 1 ws)
    PADDLE_ENFORCE ((lib.FindConvolutionForwardAlgorithm i).1 == miopenStatusSuccess)
      KernelError.LibraryCallFailure
    let perfRes := (lib.FindConvolutionForwardAlgorithm i).2
    emit (Event.ConvolutionForward (toInt32 (i * l.group_offset_in))
      (toInt32 (i * l.group_offset_filter)) (toInt32 (i * l.group_offset_out))
      perfRes.fwd_algo ws)
    PADDLE_ENFORCE (lib.ConvolutionForward i == miopenStatusSuccess)
      KernelError.LibraryCallFailure
    CUDNNConvOpKernel.group_loop lib l ws n (toInt32 (i + 1))

/-- The forward kernel `CUDNNConvOpKernel::Compute` (lines 45-157). -/
def CUDNNConvOpKernel.Compute (lib : MIOpen) (ctx : ExecutionContext) : K Unit := do
  PADDLE_ENFORCE ctx.is_gpu_place KernelError.InvalidPlacement
  let groups := ctx.groups
  emit (Event.MutableData OutputVar.Output)
  emit Event.ConvolutionDescriptor
  emit (Event.SetConvolutionGroupCount groups)
  PADDLE_ENFORCE (lib.SetConvolutionGroupCount groups == miopenStatusSuccess)
    KernelError.LibraryCallFailure
  let l := CUDNNConvOpKernel.layout ctx
  emit (Event.TensorDescriptor ctx.Input.dims l.groups)
  emit (Event.TensorDescriptor ctx.Output.dims l.groups)
  emit (Event.FilterDescriptor ctx.Filter.dims l.groups)
  let workspace_size_limit := CUDNNConvOpKernel.workspace_size_limit ctx.workspace_size_MB
  emit Event.ConvolutionForwardGetWorkSpaceSize
  PADDLE_ENFORCE (lib.ConvolutionForwardGetWorkSpaceSize.1 == miopenStatusSuccess)
    KernelError.LibraryCallFailure
  let workspace_size_in_bytes := lib.ConvolutionForwardGetWorkSpaceSize.2
  PADDLE_ENFORCE (decide (workspace_size_in_bytes ≤ workspace_size_limit))
    KernelError.WorkspaceExceeded
  emit (Event.Alloc workspace_size_in_bytes)
  CUDNNConvOpKernel.group_loop lib l workspace_size_in_bytes l.groups.toNat 0
  emit Event.Free

/-! ## The backward kernel -/

/-- Lines 212-222 and 236-237 of `CUDNNConvGradOpKernel::Compute`: `group_offset_in`. -/
def CUDNNConvGradOpKernel.group_offset_in (ctx : ExecutionContext) (groups : Int) : Int :=
  let input_channels := toInt32 (ctx.Input.dim 1)
  let input_depth := if ctx.Input.dims.length = 5 then toInt32 (ctx.Input.dim 2) else 1
  let input_height :=
    if ctx.Input.dims.length = 5 then toInt32 (ctx.Input.dim 3) else toInt32 (ctx.Input.dim 2)
  let input_width :=
    if ctx.Input.dims.length = 5 then toInt32 (ctx.Input.dim 4) else toInt32 (ctx.Input.dim 3)
  toInt32 (toInt32 (toInt32 (Int.tdiv input_channels groups * input_height) * input_width)
    * input_depth)

/-- Lines 224-234 and 238-239: `group_offset_out`; the channel count is read from the
filter, the spatial extents from the output gradient, and the rank test is made on the
input. -/
def CUDNNConvGradOpKernel.group_offset_out (ctx : ExecutionContext) (groups : Int) : Int :=
  let output_grad_channels := toInt32 (ctx.Filter.dim 0)
  let output_grad_depth :=
    if ctx.Input.dims.length = 5 then toInt32 (ctx.OutputGrad.dim 2) else 1
  let output_grad_height :=
    if ctx.Input.dims.length = 5 then toInt32 (ctx.OutputGrad.dim 3)
    else toInt32 (ctx.OutputGrad.dim 2)
  let output_grad_width :=
    if ctx.Input.dims.length = 5 then toInt32 (ctx.OutputGrad.dim 4)
    else toInt32 (ctx.OutputGrad.dim 3)
  toInt32 (toInt32 (toInt32 (Int.tdiv output_grad_channels groups * output_grad_height)
    * output_grad_width) * output_grad_depth)

/-- Line 240: `int group_offset_filter = filter->numel() / groups`. -/
def CUDNNConvGradOpKernel.group_offset_filter (ctx : ExecutionContext) (groups : Int) : Int :=
  toInt32 (Int.tdiv ctx.Filter.numel groups)

/-- Lines 198-202 and 236-240 of `CUDNNConvGradOpKernel::Compute`: the local `groups` is
`1` after the vendor group-count call (`#if 1`), and the strides are computed with it. -/
def CUDNNConvGradOpKernel.layout (ctx : ExecutionContext) : GroupLayout :=
  let groups : Int := 1
  { groups := groups
    group_offset_in := CUDNNConvGradOpKernel.group_offset_in ctx groups
    group_offset_out := CUDNNConvGradOpKernel.group_offset_out ctx groups
    group_offset_filter := CUDNNConvGradOpKernel.group_offset_filter ctx groups }

/-- Lines 250-256: the backward-data sizing query, made only when the input gradient is
requested; `ws` is `workspace_size_in_bytes` on entry, the result its value on exit. -/
def CUDNNConvGradOpKernel.size_data (lib : MIOpen) (ctx : ExecutionContext) (ws : Nat) :
    K Nat :=
  if ctx.InputGrad.isSome then do
    emit Event.ConvolutionBackwardDataGetWorkSpaceSize
    PADDLE_ENFORCE (lib.ConvolutionBackwardDataGetWorkSpaceSize.1 == miopenStatusSuccess)
      KernelError.LibraryCallFailure
    let tmp_size := lib.ConvolutionBackwardDataGetWorkSpaceSize.2
    pure (max ws tmp_size)
  else pure ws

/-- Lines 258-264: the backward-weights sizing query, made only when the filter gradient
is requested. -/
def CUDNNConvGradOpKernel.size_weights (lib : MIOpen) (ctx : ExecutionContext) (ws : Nat) :
    K Nat :=
  if ctx.FilterGrad.isSome then do
    emit Event.ConvolutionBackwardWeightsGetWorkSpaceSize
    PADDLE_ENFORCE (lib.ConvolutionBackwardWeightsGetWorkSpaceSize.1 == miopenStatusSuccess)
      KernelError.LibraryCallFailure
    let tmp_size := lib.ConvolutionBackwardWeightsGetWorkSpaceSize.2
    pure (max ws tmp_size)
  else pure ws

/-- Lines 280-295: the backward-data group loop, entered at counter `i` with `n`
iterations left. -/
def CUDNNConvGradOpKernel.data_loop (lib : MIOpen) (l : GroupLayout) (ws : Nat) :
    Nat → Int → K Unit
  | 0, _ => pure ()
  | n + 1, i => do
    emit (Event.FindConvolutionBackwardDataAlgorithm (toInt32 (i * l.group_offset_out))
      (toInt32 (i * l.group_offset_filter)) (toInt32 (i * l.group_offset_in)) 1 ws)
    PADDLE_ENFORCE ((lib.FindConvolutionBackwardDataAlgorithm i).1 == miopenStatusSuccess)
      KernelError.LibraryCallFailure
    let perfRes := (lib.FindConvolutionBackwardDataAlgorithm i).2
    emit (Event.ConvolutionBackwardData (toInt32 (i * l.group_offset_out))
      (toInt32 (i * l.group_offset_filter)) (toInt32 (i * l.group_offset_in))
      perfRes.bwd_data_algo ws)
    PADDLE_ENFORCE (lib.ConvolutionBackwardData i == miopenStatusSuccess)
      KernelError.LibraryCallFailure
    CUDNNConvGradOpKernel.data_loop lib l ws n (toInt32 (i + 1))

/-- Lines 301-317: the backward-weights group loop. -/
def CUDNNConvGradOpKernel.weights_loop (lib : MIOpen) (l : GroupLayout) (ws : Nat) :
    Nat → Int → K Unit
  | 0, _ => pure ()
  | n + 1, i => do
    emit (Event.FindConvolutionBackwardWeightsAlgorithm (toInt32 (i * l.group_offset_out))
      (toInt32 (i * l.group_offset_in)) (toInt32 (i * l.group_offset_filter)) 1 ws)
    PADDLE_ENFORCE ((lib.FindConvolutionBackwardWeightsAlgorithm i).1 == miopenStatusSuccess)
      KernelError.LibraryCallFailure
    let perfRes := (lib.FindConvolutionBackwardWeightsAlgorithm i).2
    emit (Event.ConvolutionBackwardWeights (toInt32 (i * l.group_offset_out))
      (toInt32 (i * l.group_offset_in)) (toInt32 (i * l.group_offset_filter))
      perfRes.bwd_weights_algo ws)
    PADDLE_ENFORCE (lib.ConvolutionBackwardWeights i == miopenStatusSuccess)
      KernelError.LibraryCallFailure
    CUDNNConvGradOpKernel.weights_loop lib l ws n (toInt32 (i + 1))

/-- Lines 242 and 250-264: `workspace_size_in_bytes`, initially `0`, after the sizing
queries of the requested gradients. -/
def CUDNNConvGradOpKernel.required_size (lib : MIOpen) (ctx : ExecutionContext) : K Nat := do
  let workspace_size_in_bytes ← CUDNNConvGradOpKernel.size_data lib ctx 0
  CUDNNConvGradOpKernel.size_weights lib ctx workspace_size_in_bytes

/-- Lines 269-320: allocation of the workspace, the backward-data loop when the input
gradient is requested, the backward-weights loop when the filter gradient is requested,
and the release of the workspace. -/
def CUDNNConvGradOpKernel.execute (lib : MIOpen) (ctx : ExecutionContext) (l : GroupLayout)
    (workspace_size_in_bytes : Nat) : K Unit := do
  emit (Event.Alloc workspace_size_in_bytes)
  if ctx.InputGrad.isSome then
    emit (Event.MutableData OutputVar.InputGrad)
    CUDNNConvGradOpKernel.data_loop lib l workspace_size_in_bytes l.groups.toNat 0
  if ctx.FilterGrad.isSome then
    emit (Event.MutableData OutputVar.FilterGrad)
    CUDNNConvGradOpKernel.weights_loop lib l workspace_size_in_bytes l.groups.toNat 0
  emit Event.Free

/-- The backward kernel `CUDNNConvGradOpKernel::Compute` (lines 163-321). -/
def CUDNNConvGradOpKernel.Compute (lib : MIOpen) (ctx : ExecutionContext) : K Unit := do
  PADDLE_ENFORCE ctx.is_gpu_place KernelError.InvalidPlacement
  let groups := ctx.groups
  emit Event.ConvolutionDescriptor
  emit (Event.SetConvolutionGroupCount groups)
  PADDLE_ENFORCE (lib.SetConvolutionGroupCount groups == miopenStatusSuccess)
    KernelError.LibraryCallFailure
  let l := CUDNNConvGradOpKernel.layout ctx
  emit (Event.TensorDescriptor ctx.Input.dims l.groups)
  emit (Event.TensorDescriptor ctx.OutputGrad.dims l.groups)
  emit (Event.FilterDescriptor ctx.Filter.dims l.groups)
  let workspace_size_limit := CUDNNConvGradOpKernel.workspace_size_limit ctx.workspace_size_MB
  let workspace_size_in_bytes ← CUDNNConvGradOpKernel.required_size lib ctx
  PADDLE_ENFORCE (decide (workspace_size_limit > workspace_size_in_bytes))
    KernelError.WorkspaceExceeded
  CUDNNConvGradOpKernel.execute lib ctx l workspace_size_in_bytes

/-! ## Observations on traces -/

/-- Sizes of the device-memory allocations in a trace, in order. -/
def allocs : List Event → List Nat
  | [] => []
  | Event.Alloc s :: es => s :: allocs es
  | _ :: es => allocs es

/-- Device-memory allocation by the kernel (`paddle::memory::Alloc`). -/
def Event.isAlloc : Event → Bool
  | Event.Alloc _ => true
  | _ => false

/-- Release of the workspace (`paddle::memory::Free`). -/
def Event.isFree : Event → Bool
  | Event.Free => true
  | _ => false

/-- Find-algorithm query of any direction. -/
def Event.isFind : Event → Bool
  | Event.FindConvolutionForwardAlgorithm .. => true
  | Event.FindConvolutionBackwardDataAlgorithm .. => true
  | Event.FindConvolutionBackwardWeightsAlgorithm .. => true
  | _ => false

/-- Convolution compute call of any direction. -/
def Event.isCompute : Event → Bool
  | Event.ConvolutionForward .. => true
  | Event.ConvolutionBackwardData .. => true
  | Event.ConvolutionBackwardWeights .. => true
  | _ => false

/-- Backward-data sizing query, find-algorithm query or compute call. -/
def Event.isBackwardData : Event → Bool
  | Event.ConvolutionBackwardDataGetWorkSpaceSize => true
  | Event.FindConvolutionBackwardDataAlgorithm .. => true
  | Event.ConvolutionBackwardData .. => true
  | _ => false

/-- Backward-filter sizing query, find-algorithm query or compute call. -/
def Event.isBackwardWeights : Event → Bool
  | Event.ConvolutionBackwardWeightsGetWorkSpaceSize => true
  | Event.FindConvolutionBackwardWeightsAlgorithm .. => true
  | Event.ConvolutionBackwardWeights .. => true
  | _ => false

/-- Call of the vendor group-count configuration primitive. -/
def Event.isSetGroupCount : Event → Bool
  | Event.SetConvolutionGroupCount _ => true
  | _ => false

/-- Group count a descriptor is built with, for the descriptor events. -/
def Event.descriptorGroups : Event → Option Int
  | Event.TensorDescriptor _ g => some g
  | Event.FilterDescriptor _ g => some g
  | _ => none

/-- Element offsets of the three buffer pointers of a find-algorithm query or compute call
(no entry for the other events). -/
def Event.offsets : Event → List Int
  | Event.FindConvolutionForwardAlgorithm x w y _ _ => [x, w, y]
  | Event.ConvolutionForward x w y _ _ => [x, w, y]
  | Event.FindConvolutionBackwardDataAlgorithm dy w dx _ _ => [dy, w, dx]
  | Event.ConvolutionBackwardData dy w dx _ _ => [dy, w, dx]
  | Event.FindConvolutionBackwardWeightsAlgorithm dy x dw _ _ => [dy, x, dw]
  | Event.ConvolutionBackwardWeights dy x dw _ _ => [dy, x, dw]
  | _ => []

/-- Workspace size handed to a find-algorithm query or compute call. -/
def Event.workSpaceSize : Event → Option Nat
  | Event.FindConvolutionForwardAlgorithm _ _ _ _ ws => some ws
  | Event.ConvolutionForward _ _ _ _ ws => some ws
  | Event.FindConvolutionBackwardDataAlgorithm _ _ _ _ ws => some ws
  | Event.ConvolutionBackwardData _ _ _ _ ws => some ws
  | Event.FindConvolutionBackwardWeightsAlgorithm _ _ _ _ ws => some ws
  | Event.ConvolutionBackwardWeights _ _ _ _ ws => some ws
  | _ => none

/-- Requested result count of a find-algorithm query. -/
def Event.requestAlgoCount : Event → Option Int
  | Event.FindConvolutionForwardAlgorithm _ _ _ n _ => some n
  | Event.FindConvolutionBackwardDataAlgorithm _ _ _ n _ => some n
  | Event.FindConvolutionBackwardWeightsAlgorithm _ _ _ n _ => some n
  | _ => none

/-- The backward requirement as the specification words it: the maximum of the
backward-data requirement, counted only if an input gradient is requested, and the
backward-filter requirement, counted only if a filter gradient is requested (`0` when
neither is requested). -/
def backward_requirement (lib : MIOpen) (ctx : ExecutionContext) : Nat :=
  max (if ctx.InputGrad.isSome then lib.ConvolutionBackwardDataGetWorkSpaceSize.2 else 0)
    (if ctx.FilterGrad.isSome then lib.ConvolutionBackwardWeightsGetWorkSpaceSize.2 else 0)

/-! ## Pieces of traces -/

/-- A computation run after the actions `t` have been issued. -/
def K.after {β : Type} (t : List Event) (k : K β) : K β := ⟨k.result, t ++ k.trace⟩

/-- Trace of the forward kernel up to and including the sizing query. -/
def CUDNNConvOpKernel.sized (ctx : ExecutionContext) : List Event :=
  [Event.MutableData OutputVar.Output, Event.ConvolutionDescriptor,
    Event.SetConvolutionGroupCount ctx.groups,
    Event.TensorDescriptor ctx.Input.dims 1, Event.TensorDescriptor ctx.Output.dims 1,
    Event.FilterDescriptor ctx.Filter.dims 1, Event.ConvolutionForwardGetWorkSpaceSize]

/-- Trace of the backward-data loop when both calls of its single iteration are issued. -/
def CUDNNConvGradOpKernel.data_events (lib : MIOpen) (ws : Nat) : List Event :=
  [Event.FindConvolutionBackwardDataAlgorithm 0 0 0 1 ws,
    Event.ConvolutionBackwardData 0 0 0
      (lib.FindConvolutionBackwardDataAlgorithm 0).2.bwd_data_algo ws]

/-- Trace of the backward-weights loop when both calls of its single iteration are issued. -/
def CUDNNConvGradOpKernel.weights_events (lib : MIOpen) (ws : Nat) : List Event :=
  [Event.FindConvolutionBackwardWeightsAlgorithm 0 0 0 1 ws,
    Event.ConvolutionBackwardWeights 0 0 0
      (lib.FindConvolutionBackwardWeightsAlgorithm 0).2.bwd_weights_algo ws]

/-- Trace of the backward kernel up to the sizing queries. -/
def CUDNNConvGradOpKernel.described (ctx : ExecutionContext) : List Event :=
  [Event.ConvolutionDescriptor, Event.SetConvolutionGroupCount ctx.groups,
    Event.TensorDescriptor ctx.Input.dims 1, Event.TensorDescriptor ctx.OutputGrad.dims 1,
    Event.FilterDescriptor ctx.Filter.dims 1]

/-! ## Sample invocations -/

/-- A vendor library whose calls all succeed; the sizing queries answer `fwd`, `data` and
`weights`, every find-algorithm query selects algorithms `1`, `2`, `3` and reports a
workspace usage of `7` bytes. -/
def vendor_ok (fwd data weights : Nat) : MIOpen :=
  { SetConvolutionGroupCount := fun _ => 0
    ConvolutionForwardGetWorkSpaceSize := (0, fwd)
    ConvolutionBackwardDataGetWorkSpaceSize := (0, data)
    ConvolutionBackwardWeightsGetWorkSpaceSize := (0, weights)
    FindConvolutionForwardAlgorithm := fun _ => (0, ⟨1, 2, 3, 7⟩)
    ConvolutionForward := fun _ => 0
    FindConvolutionBackwardDataAlgorithm := fun _ => (0, ⟨1, 2, 3, 7⟩)
    ConvolutionBackwardData := fun _ => 0
    FindConvolutionBackwardWeightsAlgorithm := fun _ => (0, ⟨1, 2, 3, 7⟩)
    ConvolutionBackwardWeights := fun _ => 0 }

/-- A vendor library like `vendor_ok 64 64 64` whose find-algorithm queries fail. -/
def vendor_find_fails : MIOpen :=
  { vendor_ok 64 64 64 with
    FindConvolutionForwardAlgorithm := fun _ => (1, ⟨0, 0, 0, 0⟩)
    FindConvolutionBackwardDataAlgorithm := fun _ => (1, ⟨0, 0, 0, 0⟩)
    FindConvolutionBackwardWeightsAlgorithm := fun _ => (1, ⟨0, 0, 0, 0⟩) }

/-- A vendor library like `vendor_ok 64 64 64` whose compute calls fail. -/
def vendor_compute_fails : MIOpen :=
  { vendor_ok 64 64 64 with
    ConvolutionForward := fun _ => 1
    ConvolutionBackwardData := fun _ => 1
    ConvolutionBackwardWeights := fun _ => 1 }

/-- A convolution of a `[batch, 4, 8, 8]` input with 8 output channels and 3x3 filters, for
the given `groups` and `workspace_size_MB` attributes, with both gradients requested. -/
def conv_ctx (batch groups workspace_size_MB : Int) : ExecutionContext :=
  { is_gpu_place := true
    Input := ⟨[batch, 4, 8, 8]⟩
    Filter := ⟨[8, Int.tdiv 4 groups, 3, 3]⟩
    Output := ⟨[batch, 8, 8, 8]⟩
    OutputGrad := ⟨[batch, 8, 8, 8]⟩
    InputGrad := some ⟨[batch, 4, 8, 8]⟩
    FilterGrad := some ⟨[8, Int.tdiv 4 groups, 3, 3]⟩
    groups := groups
    workspace_size_MB := workspace_size_MB }

/-! ## Basic facts -/

theorem kLimit_eq : kCONV_CUDNN_WORKSPACE_LIMIT_BYTES = 1073741824 := by
  unfold kCONV_CUDNN_WORKSPACE_LIMIT_BYTES toSizeT
  omega

theorem user_workspace_size_eq (m : Int) (hlo : -2147483648 ≤ m) (hhi : m < 2147483648) :
    user_workspace_size m = m := by
  unfold user_workspace_size toInt64 toSizeT
  omega


theorem bind_ok {α β : Type} (a : α) (t : List Event) (f : α → K β) :
    (K.ok a t >>= f) = K.after t (f a) :=
  Eq.trans rfl rfl

theorem bind_raise {α β : Type} (e : KernelError) (t : List Event) (f : α → K β) :
    ((K.raise e t : K α) >>= f) = K.raise e t :=
  Eq.trans rfl rfl

theorem bind_ite_K {α β : Type} (c : Prop) [Decidable c] (x y : K α) (f : α → K β) :
    ((if c then x else y) >>= f) = if c then x >>= f else y >>= f := by
  split <;> rfl

theorem after_ite {β : Type} (c : Prop) [Decidable c] (t : List Event) (x y : K β) :
    K.after t (if c then x else y) = if c then K.after t x else K.after t y := by
  split <;> rfl

theorem after_ok {β : Type} (t u : List Event) (a : β) :
    K.after t (K.ok a u) = K.ok a (t ++ u) :=
  Eq.trans rfl rfl

theorem after_raise {β : Type} (t u : List Event) (e : KernelError) :
    K.after t (K.raise e u : K β) = K.raise e (t ++ u) :=
  Eq.trans rfl rfl

theorem pure_K {α : Type} (a : α) : (pure a : K α) = K.ok a [] :=
  Eq.trans rfl rfl

theorem toInt32_zero : toInt32 0 = 0 := by
  unfold toInt32
  omega

theorem after_nil {β : Type} (k : K β) : K.after [] k = k :=
  Eq.trans rfl rfl

theorem after_after {β : Type} (t u : List Event) (k : K β) :
    K.after t (K.after u k) = K.after (t ++ u) k := by
  simp only [K.after, List.append_assoc]

theorem ok_result {α : Type} (a : α) (t : List Event) : (K.ok a t).result = Except.ok a :=
  Eq.trans rfl rfl

theorem ok_trace {α : Type} (a : α) (t : List Event) : (K.ok a t).trace = t :=
  Eq.trans rfl rfl

theorem raise_result {α : Type} (e : KernelError) (t : List Event) :
    (K.raise e t : K α).result = Except.error e :=
  Eq.trans rfl rfl

theorem raise_trace {α : Type} (e : KernelError) (t : List Event) :
    (K.raise e t : K α).trace = t :=
  Eq.trans rfl rfl

/-! ## Closed forms of the kernels

Each kernel is a decision tree over the answers of the vendor library; every leaf is the
result of the invocation together with the complete trace. -/

theorem forward_eq (lib : MIOpen) (ctx : ExecutionContext) :
    CUDNNConvOpKernel.Compute lib ctx =
      if ctx.is_gpu_place = true then
        if lib.SetConvolutionGroupCount ctx.groups = 0 then
          if lib.ConvolutionForwardGetWorkSpaceSize.1 = 0 then
            if lib.ConvolutionForwardGetWorkSpaceSize.2 ≤
                CUDNNConvOpKernel.workspace_size_limit ctx.workspace_size_MB then
              if (lib.FindConvolutionForwardAlgorithm 0).1 = 0 then
                if lib.ConvolutionForward 0 = 0 then
                  K.ok () (CUDNNConvOpKernel.sized ctx ++
                    [Event.Alloc lib.ConvolutionForwardGetWorkSpaceSize.2,
                      Event.FindConvolutionForwardAlgorithm 0 0 0 1
                        lib.ConvolutionForwardGetWorkSpaceSize.2,
                      Event.ConvolutionForward 0 0 0
                        (lib.FindConvolutionForwardAlgorithm 0).2.fwd_algo
                        lib.ConvolutionForwardGetWorkSpaceSize.2,
                      Event.Free])
                else
                  K.raise KernelError.LibraryCallFailure (CUDNNConvOpKernel.sized ctx ++
                    [Event.Alloc lib.ConvolutionForwardGetWorkSpaceSize.2,
                      Event.FindConvolutionForwardAlgorithm 0 0 0 1
                        lib.ConvolutionForwardGetWorkSpaceSize.2,
                      Event.ConvolutionForward 0 0 0
                        (lib.FindConvolutionForwardAlgorithm 0).2.fwd_algo
                        lib.ConvolutionForwardGetWorkSpaceSize.2])
              else
                K.raise KernelError.LibraryCallFailure (CUDNNConvOpKernel.sized ctx ++
                  [Event.Alloc lib.ConvolutionForwardGetWorkSpaceSize.2,
                    Event.FindConvolutionForwardAlgorithm 0 0 0 1
                      lib.ConvolutionForwardGetWorkSpaceSize.2])
            else K.raise KernelError.WorkspaceExceeded (CUDNNConvOpKernel.sized ctx)
          else K.raise KernelError.LibraryCallFailure (CUDNNConvOpKernel.sized ctx)
        else
          K.raise KernelError.LibraryCallFailure
            [Event.MutableData OutputVar.Output, Event.ConvolutionDescriptor,
              Event.SetConvolutionGroupCount ctx.groups]
      else K.raise KernelError.InvalidPlacement [] := by
  simp only [CUDNNConvOpKernel.Compute, emit, PADDLE_ENFORCE, pure_K, bind_ok, bind_raise,
    bind_ite_K, after_ite, after_ok, after_raise, CUDNNConvOpKernel.sized,
    CUDNNConvOpKernel.layout, CUDNNConvOpKernel.group_loop, Int.toNat_one, List.cons_append,
    List.nil_append, List.append_nil, beq_iff_eq, miopenStatusSuccess, decide_eq_true_eq,
    Int.zero_mul, toInt32_zero]

theorem required_size_eq (lib : MIOpen) (ctx : ExecutionContext) :
    CUDNNConvGradOpKernel.required_size lib ctx =
      if ctx.InputGrad.isSome = true then
        if lib.ConvolutionBackwardDataGetWorkSpaceSize.1 = 0 then
          if ctx.FilterGrad.isSome = true then
            if lib.ConvolutionBackwardWeightsGetWorkSpaceSize.1 = 0 then
              K.ok (max lib.ConvolutionBackwardDataGetWorkSpaceSize.2
                  lib.ConvolutionBackwardWeightsGetWorkSpaceSize.2)
                [Event.ConvolutionBackwardDataGetWorkSpaceSize,
                  Event.ConvolutionBackwardWeightsGetWorkSpaceSize]
            else
              K.raise KernelError.LibraryCallFailure
                [Event.ConvolutionBackwardDataGetWorkSpaceSize,
                  Event.ConvolutionBackwardWeightsGetWorkSpaceSize]
          else
            K.ok lib.ConvolutionBackwardDataGetWorkSpaceSize.2
              [Event.ConvolutionBackwardDataGetWorkSpaceSize]
        else
          K.raise KernelError.LibraryCallFailure [Event.ConvolutionBackwardDataGetWorkSpaceSize]
      else
        if ctx.FilterGrad.isSome = true then
          if lib.ConvolutionBackwardWeightsGetWorkSpaceSize.1 = 0 then
            K.ok lib.ConvolutionBackwardWeightsGetWorkSpaceSize.2
              [Event.ConvolutionBackwardWeightsGetWorkSpaceSize]
          else
            K.raise KernelError.LibraryCallFailure
              [Event.ConvolutionBackwardWeightsGetWorkSpaceSize]
        else K.ok 0 [] := by
  simp only [CUDNNConvGradOpKernel.required_size, CUDNNConvGradOpKernel.size_data,
    CUDNNConvGradOpKernel.size_weights, emit, PADDLE_ENFORCE, pure_K, bind_ok, bind_raise,
    bind_ite_K, after_ite, after_ok, after_raise, List.cons_append, List.append_nil,
    List.nil_append, beq_iff_eq, miopenStatusSuccess, decide_eq_true_eq, Nat.zero_max]

theorem execute_eq (lib : MIOpen) (ctx : ExecutionContext) (ws : Nat) :
    CUDNNConvGradOpKernel.execute lib ctx (CUDNNConvGradOpKernel.layout ctx) ws =
      if ctx.InputGrad.isSome = true then
        if (lib.FindConvolutionBackwardDataAlgorithm 0).1 = 0 then
          if lib.ConvolutionBackwardData 0 = 0 then
            if ctx.FilterGrad.isSome = true then
              if (lib.FindConvolutionBackwardWeightsAlgorithm 0).1 = 0 then
                if lib.ConvolutionBackwardWeights 0 = 0 then
                  K.ok () (Event.Alloc ws :: Event.MutableData OutputVar.InputGrad ::
                    CUDNNConvGradOpKernel.data_events lib ws ++
                    (Event.MutableData OutputVar.FilterGrad ::
                      CUDNNConvGradOpKernel.weights_events lib ws) ++ [Event.Free])
                else
                  K.raise KernelError.LibraryCallFailure
                    (Event.Alloc ws :: Event.MutableData OutputVar.InputGrad ::
                      CUDNNConvGradOpKernel.data_events lib ws ++
                      (Event.MutableData OutputVar.FilterGrad ::
                        CUDNNConvGradOpKernel.weights_events lib ws))
              else
                K.raise KernelError.LibraryCallFailure
                  (Event.Alloc ws :: Event.MutableData OutputVar.InputGrad ::
                    CUDNNConvGradOpKernel.data_events lib ws ++
                    [Event.MutableData OutputVar.FilterGrad,
                      Event.FindConvolutionBackwardWeightsAlgorithm 0 0 0 1 ws])
            else
              K.ok () (Event.Alloc ws :: Event.MutableData OutputVar.InputGrad ::
                CUDNNConvGradOpKernel.data_events lib ws ++ [Event.Free])
          else
            K.raise KernelError.LibraryCallFailure
              (Event.Alloc ws :: Event.MutableData OutputVar.InputGrad ::
                CUDNNConvGradOpKernel.data_events lib ws)
        else
          K.raise KernelError.LibraryCallFailure
            [Event.Alloc ws, Event.MutableData OutputVar.InputGrad,
              Event.FindConvolutionBackwardDataAlgorithm 0 0 0 1 ws]
      else
        if ctx.FilterGrad.isSome = true then
          if (lib.FindConvolutionBackwardWeightsAlgorithm 0).1 = 0 then
            if lib.ConvolutionBackwardWeights 0 = 0 then
              K.ok () (Event.Alloc ws :: Event.MutableData OutputVar.FilterGrad ::
                CUDNNConvGradOpKernel.weights_events lib ws ++ [Event.Free])
            else
              K.raise KernelError.LibraryCallFailure
                (Event.Alloc ws :: Event.MutableData OutputVar.FilterGrad ::
                  CUDNNConvGradOpKernel.weights_events lib ws)
          else
            K.raise KernelError.LibraryCallFailure
              [Event.Alloc ws, Event.MutableData OutputVar.FilterGrad,
                Event.FindConvolutionBackwardWeightsAlgorithm 0 0 0 1 ws]
        else K.ok () [Event.Alloc ws, Event.Free] := by
  simp only [CUDNNConvGradOpKernel.execute, emit, PADDLE_ENFORCE, pure_K, bind_ok, bind_raise,
    bind_ite_K, after_ite, after_ok, after_raise, CUDNNConvGradOpKernel.data_events,
    CUDNNConvGradOpKernel.weights_events,
    CUDNNConvGradOpKernel.layout, CUDNNConvGradOpKernel.data_loop,
    CUDNNConvGradOpKernel.weights_loop, Int.toNat_one, List.cons_append, List.append_nil,
    List.nil_append, beq_iff_eq, miopenStatusSuccess, decide_eq_true_eq, Int.zero_mul,
    toInt32_zero]

theorem backward_eq (lib : MIOpen) (ctx : ExecutionContext) :
    CUDNNConvGradOpKernel.Compute lib ctx =
      if ctx.is_gpu_place = true then
        if lib.SetConvolutionGroupCount ctx.groups = 0 then
          K.after (CUDNNConvGradOpKernel.described ctx)
            (CUDNNConvGradOpKernel.required_size lib ctx >>= fun ws =>
              if CUDNNConvGradOpKernel.workspace_size_limit ctx.workspace_size_MB > ws then
                CUDNNConvGradOpKernel.execute lib ctx (CUDNNConvGradOpKernel.layout ctx) ws
              else K.raise KernelError.WorkspaceExceeded [])
        else
          K.raise KernelError.LibraryCallFailure
            [Event.ConvolutionDescriptor, Event.SetConvolutionGroupCount ctx.groups]
      else K.raise KernelError.InvalidPlacement [] := by
  have hg : (CUDNNConvGradOpKernel.layout ctx).groups = 1 := rfl
  simp only [CUDNNConvGradOpKernel.Compute, emit, PADDLE_ENFORCE, pure_K, bind_ok, bind_raise,
    bind_ite_K, after_ite, after_ok, after_raise, after_nil, after_after, hg,
    CUDNNConvGradOpKernel.described, List.cons_append, List.append_nil,
    List.nil_append, beq_iff_eq, miopenStatusSuccess, decide_eq_true_eq]

/-! ## The workspace policy -/

theorem limit_forward_eq (m : Int) (hlo : -2147483648 ≤ m) (hhi : m < 2147483648) :
    (CUDNNConvOpKernel.workspace_size_limit m : Int) =
      if m > 0 then m * 1024 * 1024 else 1073741824 := by
  unfold CUDNNConvOpKernel.workspace_size_limit
  rw [user_workspace_size_eq m hlo hhi, kLimit_eq]
  split
  · unfold toSizeT toInt64
    omega
  · rfl

theorem limit_backward_eq (m : Int) (hlo : -2147483648 ≤ m) (hhi : m < 2147483648) :
    (CUDNNConvGradOpKernel.workspace_size_limit m : Int) =
      if m > 0 then m * 1024 * 1024 else 1073741824 := by
  unfold CUDNNConvGradOpKernel.workspace_size_limit
  rw [user_workspace_size_eq m hlo hhi, kLimit_eq]
  split
  · unfold toSizeT toInt64
    omega
  · rfl

theorem limit_forward_default : CUDNNConvOpKernel.workspace_size_limit 0 = 1073741824 := by
  have h := limit_forward_eq 0 (by omega) (by omega)
  rw [if_neg (by omega)] at h
  omega

theorem limit_backward_default : CUDNNConvGradOpKernel.workspace_size_limit 0 = 1073741824 := by
  have h := limit_backward_eq 0 (by omega) (by omega)
  rw [if_neg (by omega)] at h
  omega

/-- C3: for every 32-bit signed value `m` of `workspace_size_MB` the conversions
`int -> size_t -> int64_t` give back `m`, and the limit computed by the forward and by the
backward kernel is the exact integer `m * 1024 * 1024` when `m > 0` and `1073741824` when
`m <= 0` (no wrap-around). -/
theorem C3_effective_limit (m : Int) (hlo : -2147483648 ≤ m) (hhi : m < 2147483648) :
    user_workspace_size m = m ∧
    (CUDNNConvOpKernel.workspace_size_limit m : Int) =
      (if m > 0 then m * 1024 * 1024 else 1073741824) ∧
    (CUDNNConvGradOpKernel.workspace_size_limit m : Int) =
      (if m > 0 then m * 1024 * 1024 else 1073741824) :=
  ⟨user_workspace_size_eq m hlo hhi, limit_forward_eq m hlo hhi, limit_backward_eq m hlo hhi⟩

theorem C3_effective_limit_witness :
    user_workspace_size 64 = 64 ∧
    (CUDNNConvOpKernel.workspace_size_limit 64 : Int) = 67108864 ∧
    (CUDNNConvGradOpKernel.workspace_size_limit 64 : Int) = 67108864 :=
  C3_effective_limit 64 (by decide) (by decide)

/-- C1: in a forward invocation that reaches the sizing query and is answered `s`, the
call fails with the workspace-exceeded error exactly when `s` is greater than the
effective limit; when `s` is at most the limit (in particular equal to it) exactly `s`
bytes are allocated; with `workspace_size_MB <= 0` a requirement of 2 GiB fails. -/
theorem C1_forward_workspace_check (lib : MIOpen) (ctx : ExecutionContext) (s : Nat)
    (hplace : ctx.is_gpu_place = true)
    (hgroup : lib.SetConvolutionGroupCount ctx.groups = miopenStatusSuccess)
    (hsize : lib.ConvolutionForwardGetWorkSpaceSize = (miopenStatusSuccess, s)) :
    ((CUDNNConvOpKernel.Compute lib ctx).result = Except.error KernelError.WorkspaceExceeded ↔
      s > CUDNNConvOpKernel.workspace_size_limit ctx.workspace_size_MB) ∧
    (s ≤ CUDNNConvOpKernel.workspace_size_limit ctx.workspace_size_MB →
      allocs (CUDNNConvOpKernel.Compute lib ctx).trace = [s]) ∧
    (s = CUDNNConvOpKernel.workspace_size_limit ctx.workspace_size_MB →
      (CUDNNConvOpKernel.Compute lib ctx).result ≠ Except.error KernelError.WorkspaceExceeded ∧
      allocs (CUDNNConvOpKernel.Compute lib ctx).trace = [s]) ∧
    (-2147483648 ≤ ctx.workspace_size_MB → ctx.workspace_size_MB ≤ 0 → s = 2147483648 →
      (CUDNNConvOpKernel.Compute lib ctx).result =
        Except.error KernelError.WorkspaceExceeded) := by
  have key : ((CUDNNConvOpKernel.Compute lib ctx).result =
        Except.error KernelError.WorkspaceExceeded ↔
        s > CUDNNConvOpKernel.workspace_size_limit ctx.workspace_size_MB) ∧
      (s ≤ CUDNNConvOpKernel.workspace_size_limit ctx.workspace_size_MB →
        allocs (CUDNNConvOpKernel.Compute lib ctx).trace = [s]) := by
    rw [forward_eq]
    simp only [hplace, hgroup, hsize, miopenStatusSuccess, if_true]
    by_cases hle : s ≤ CUDNNConvOpKernel.workspace_size_limit ctx.workspace_size_MB
    · simp only [hle, if_true]
      refine ⟨?_, fun _ => ?_⟩
      · split_ifs <;> simp [ok_result, raise_result] <;> omega
      · split_ifs <;> simp [ok_trace, raise_trace, CUDNNConvOpKernel.sized, allocs]
    · simp only [hle, if_false, raise_result, true_iff]
      exact ⟨by omega, fun h => h.elim⟩
  refine ⟨key.1, key.2, ?_, ?_⟩
  · intro h
    refine ⟨fun hr => ?_, key.2 (le_of_eq h)⟩
    have := key.1.1 hr
    omega
  · intro hlo hle hs
    rw [key.1]
    have hl := limit_forward_eq ctx.workspace_size_MB hlo (by omega)
    rw [if_neg (by omega)] at hl
    omega

theorem C1_forward_workspace_check_witness :
    (conv_ctx 1 1 0).is_gpu_place = true ∧
    (vendor_ok 2147483648 0 0).ConvolutionForwardGetWorkSpaceSize =
      (miopenStatusSuccess, 2147483648) ∧
    (CUDNNConvOpKernel.Compute (vendor_ok 2147483648 0 0) (conv_ctx 1 1 0)).result =
      Except.error KernelError.WorkspaceExceeded :=
  ⟨rfl, rfl,
    (C1_forward_workspace_check (vendor_ok 2147483648 0 0) (conv_ctx 1 1 0) 2147483648
      rfl rfl rfl).2.2.2 (by simp [conv_ctx]) (by simp [conv_ctx]) rfl⟩

/-- C2: in a backward invocation that reaches the limit check, the call fails with the
workspace-exceeded error exactly when the maximum `m` of the requested requirements is
not strictly smaller than the effective limit; otherwise exactly `m` bytes are
allocated. -/
theorem C2_backward_workspace_check (lib : MIOpen) (ctx : ExecutionContext)
    (hplace : ctx.is_gpu_place = true)
    (hgroup : lib.SetConvolutionGroupCount ctx.groups = miopenStatusSuccess)
    (hdata : ctx.InputGrad.isSome = true →
      lib.ConvolutionBackwardDataGetWorkSpaceSize.1 = miopenStatusSuccess)
    (hweights : ctx.FilterGrad.isSome = true →
      lib.ConvolutionBackwardWeightsGetWorkSpaceSize.1 = miopenStatusSuccess) :
    ((CUDNNConvGradOpKernel.Compute lib ctx).result =
        Except.error KernelError.WorkspaceExceeded ↔
      backward_requirement lib ctx ≥
        CUDNNConvGradOpKernel.workspace_size_limit ctx.workspace_size_MB) ∧
    (backward_requirement lib ctx <
        CUDNNConvGradOpKernel.workspace_size_limit ctx.workspace_size_MB →
      allocs (CUDNNConvGradOpKernel.Compute lib ctx).trace = [backward_requirement lib ctx]) := by
  rw [backward_eq, required_size_eq]
  generalize CUDNNConvGradOpKernel.workspace_size_limit ctx.workspace_size_MB = L
  simp only [hplace, hgroup, miopenStatusSuccess, if_true, backward_requirement]
  cases hI : ctx.InputGrad.isSome <;> cases hF : ctx.FilterGrad.isSome
  all_goals
    simp only [hI, hF, forall_const, miopenStatusSuccess] at hdata hweights
    simp only [hdata, hweights, if_true, if_false, Bool.false_eq_true, bind_ok, bind_raise,
      after_ite, after_after, after_raise, Nat.zero_max, Nat.max_zero, max_self,
      execute_eq, hI, hF]
    split_ifs <;>
      simp [K.after, ok_result, ok_trace, raise_result, raise_trace,
        CUDNNConvGradOpKernel.described, CUDNNConvGradOpKernel.data_events,
        CUDNNConvGradOpKernel.weights_events, allocs] <;> omega

theorem C2_backward_workspace_check_witness :
    backward_requirement (vendor_ok 0 32 48) (conv_ctx 1 1 0) = 48 ∧
    allocs (CUDNNConvGradOpKernel.Compute (vendor_ok 0 32 48) (conv_ctx 1 1 0)).trace = [48] := by
  have h := C2_backward_workspace_check (vendor_ok 0 32 48) (conv_ctx 1 1 0) rfl rfl
    (fun _ => rfl) (fun _ => rfl)
  have hm : backward_requirement (vendor_ok 0 32 48) (conv_ctx 1 1 0) = 48 := by
    simp [backward_requirement, vendor_ok, conv_ctx]
  have hl := limit_backward_eq (conv_ctx 1 1 0).workspace_size_MB (by simp [conv_ctx])
    (by simp [conv_ctx])
  rw [if_neg (by simp [conv_ctx])] at hl
  refine ⟨hm, ?_⟩
  rw [← hm]
  exact h.2 (by rw [hm]; omega)

/-- C4: when the required size is greater than the applicable limit, the forward and the
backward kernel fail with the workspace-exceeded error and their trace contains no
device-memory allocation, no find-algorithm query and no compute call. -/
theorem C4_no_work_when_exceeded (lib : MIOpen) (ctx : ExecutionContext)
    (hplace : ctx.is_gpu_place = true)
    (hgroup : lib.SetConvolutionGroupCount ctx.groups = miopenStatusSuccess) :
    (lib.ConvolutionForwardGetWorkSpaceSize.1 = miopenStatusSuccess →
      lib.ConvolutionForwardGetWorkSpaceSize.2 >
        CUDNNConvOpKernel.workspace_size_limit ctx.workspace_size_MB →
      (CUDNNConvOpKernel.Compute lib ctx).result = Except.error KernelError.WorkspaceExceeded ∧
      (CUDNNConvOpKernel.Compute lib ctx).trace.countP
        (fun e => e.isAlloc || e.isFind || e.isCompute) = 0) ∧
    ((ctx.InputGrad.isSome = true →
        lib.ConvolutionBackwardDataGetWorkSpaceSize.1 = miopenStatusSuccess) →
      (ctx.FilterGrad.isSome = true →
        lib.ConvolutionBackwardWeightsGetWorkSpaceSize.1 = miopenStatusSuccess) →
      backward_requirement lib ctx >
        CUDNNConvGradOpKernel.workspace_size_limit ctx.workspace_size_MB →
      (CUDNNConvGradOpKernel.Compute lib ctx).result =
        Except.error KernelError.WorkspaceExceeded ∧
      (CUDNNConvGradOpKernel.Compute lib ctx).trace.countP
        (fun e => e.isAlloc || e.isFind || e.isCompute) = 0) := by
  constructor
  · intro hsize hgt
    rw [forward_eq]
    generalize CUDNNConvOpKernel.workspace_size_limit ctx.workspace_size_MB = L at hgt ⊢
    simp only [hplace, hgroup, hsize, miopenStatusSuccess, if_true, not_le.mpr hgt, if_false]
    simp [raise_result, raise_trace, CUDNNConvOpKernel.sized, Event.isAlloc, Event.isFind,
      Event.isCompute]
  · intro hdata hweights hgt
    rw [backward_eq, required_size_eq]
    generalize CUDNNConvGradOpKernel.workspace_size_limit ctx.workspace_size_MB = L at hgt ⊢
    simp only [hplace, hgroup, miopenStatusSuccess, if_true, backward_requirement] at hgt ⊢
    cases hI : ctx.InputGrad.isSome <;> cases hF : ctx.FilterGrad.isSome
    all_goals
      simp only [hI, hF, forall_const, miopenStatusSuccess, if_true, if_false,
        Bool.false_eq_true, Nat.zero_max, Nat.max_zero, max_self] at hdata hweights hgt
      simp only [hdata, hweights, if_true, if_false, Bool.false_eq_true, bind_ok, bind_raise,
        after_ite, after_after, after_raise, Nat.zero_max, Nat.max_zero, max_self,
        if_neg (not_lt.mpr (le_of_lt hgt))]
      simp [raise_result, raise_trace, CUDNNConvGradOpKernel.described, Event.isAlloc,
        Event.isFind, Event.isCompute]

theorem C4_no_work_when_exceeded_witness :
    (vendor_ok 2147483648 2147483648 0).ConvolutionForwardGetWorkSpaceSize.2 >
      CUDNNConvOpKernel.workspace_size_limit (conv_ctx 1 1 0).workspace_size_MB ∧
    (CUDNNConvOpKernel.Compute (vendor_ok 2147483648 2147483648 0) (conv_ctx 1 1 0)).trace.countP
      (fun e => e.isAlloc || e.isFind || e.isCompute) = 0 ∧
    (CUDNNConvGradOpKernel.Compute (vendor_ok 2147483648 2147483648 0)
      (conv_ctx 1 1 0)).trace.countP (fun e => e.isAlloc || e.isFind || e.isCompute) = 0 := by
  have hf : (vendor_ok 2147483648 2147483648 0).ConvolutionForwardGetWorkSpaceSize.2 >
      CUDNNConvOpKernel.workspace_size_limit (conv_ctx 1 1 0).workspace_size_MB := by
    simp [vendor_ok, conv_ctx, limit_forward_default]
  have hb : backward_requirement (vendor_ok 2147483648 2147483648 0) (conv_ctx 1 1 0) >
      CUDNNConvGradOpKernel.workspace_size_limit (conv_ctx 1 1 0).workspace_size_MB := by
    simp [backward_requirement, vendor_ok, conv_ctx, limit_backward_default]
  have h := C4_no_work_when_exceeded (vendor_ok 2147483648 2147483648 0) (conv_ctx 1 1 0)
    rfl rfl
  exact ⟨hf, (h.1 rfl hf).2, (h.2 (fun _ => rfl) (fun _ => rfl) hb).2⟩

/-- C5 (failing inputs): when a find-algorithm query or a compute call fails after the
workspace has been allocated, the forward and the backward kernel end with the error and
their trace contains the allocation but no release of the workspace. -/
theorem C5_workspace_not_released_on_failure :
    ((CUDNNConvOpKernel.Compute vendor_find_fails (conv_ctx 1 1 0)).result =
        Except.error KernelError.LibraryCallFailure ∧
      allocs (CUDNNConvOpKernel.Compute vendor_find_fails (conv_ctx 1 1 0)).trace = [64] ∧
      (CUDNNConvOpKernel.Compute vendor_find_fails (conv_ctx 1 1 0)).trace.countP
        Event.isFree = 0) ∧
    ((CUDNNConvOpKernel.Compute vendor_compute_fails (conv_ctx 1 1 0)).result =
        Except.error KernelError.LibraryCallFailure ∧
      allocs (CUDNNConvOpKernel.Compute vendor_compute_fails (conv_ctx 1 1 0)).trace = [64] ∧
      (CUDNNConvOpKernel.Compute vendor_compute_fails (conv_ctx 1 1 0)).trace.countP
        Event.isFree = 0) ∧
    ((CUDNNConvGradOpKernel.Compute vendor_find_fails (conv_ctx 1 1 0)).result =
        Except.error KernelError.LibraryCallFailure ∧
      allocs (CUDNNConvGradOpKernel.Compute vendor_find_fails (conv_ctx 1 1 0)).trace = [64] ∧
      (CUDNNConvGradOpKernel.Compute vendor_find_fails (conv_ctx 1 1 0)).trace.countP
        Event.isFree = 0) ∧
    ((CUDNNConvGradOpKernel.Compute vendor_compute_fails (conv_ctx 1 1 0)).result =
        Except.error KernelError.LibraryCallFailure ∧
      allocs (CUDNNConvGradOpKernel.Compute vendor_compute_fails (conv_ctx 1 1 0)).trace = [64] ∧
      (CUDNNConvGradOpKernel.Compute vendor_compute_fails (conv_ctx 1 1 0)).trace.countP
        Event.isFree = 0) := by
  refine ⟨?_, ?_, ?_, ?_⟩
  · rw [forward_eq]
    simp [vendor_find_fails, vendor_ok, conv_ctx, limit_forward_default, raise_result,
      raise_trace, CUDNNConvOpKernel.sized, allocs, Event.isFree]
  · rw [forward_eq]
    simp [vendor_compute_fails, vendor_ok, conv_ctx, limit_forward_default, raise_result,
      raise_trace, CUDNNConvOpKernel.sized, allocs, Event.isFree]
  · rw [backward_eq, required_size_eq]
    simp [vendor_find_fails, vendor_ok, conv_ctx, limit_backward_default, raise_result,
      raise_trace, CUDNNConvGradOpKernel.described, allocs, Event.isFree, bind_ok, execute_eq,
      after_raise, K.after]
  · rw [backward_eq, required_size_eq]
    simp [vendor_compute_fails, vendor_ok, conv_ctx, limit_backward_default, raise_result,
      raise_trace, CUDNNConvGradOpKernel.described, allocs, Event.isFree, bind_ok, execute_eq,
      after_raise, K.after, CUDNNConvGradOpKernel.data_events]

/-- C6: when the filter gradient is not requested the backward trace contains no
backward-filter sizing query, find-algorithm query or compute call; when the input
gradient is not requested it contains no backward-data sizing query, find-algorithm query
or compute call. -/
theorem C6_backward_independence (lib : MIOpen) (ctx : ExecutionContext) :
    (ctx.FilterGrad = none →
      (CUDNNConvGradOpKernel.Compute lib ctx).trace.countP Event.isBackwardWeights = 0) ∧
    (ctx.InputGrad = none →
      (CUDNNConvGradOpKernel.Compute lib ctx).trace.countP Event.isBackwardData = 0) := by
  rw [backward_eq, required_size_eq]
  generalize CUDNNConvGradOpKernel.workspace_size_limit ctx.workspace_size_MB = L
  constructor
  · intro hF
    simp only [hF, Option.isSome_none, Bool.false_eq_true, if_false, bind_ok, bind_raise,
      bind_ite_K, after_ite, after_ok, after_raise, after_after, after_nil, execute_eq,
      CUDNNConvGradOpKernel.described, CUDNNConvGradOpKernel.data_events, List.cons_append,
      List.nil_append, List.append_nil]
    split_ifs <;> simp [ok_trace, raise_trace, Event.isBackwardWeights]
  · intro hI
    simp only [hI, Option.isSome_none, Bool.false_eq_true, if_false, bind_ok, bind_raise,
      bind_ite_K, after_ite, after_ok, after_raise, after_after, after_nil, execute_eq,
      CUDNNConvGradOpKernel.described, CUDNNConvGradOpKernel.weights_events, List.cons_append,
      List.nil_append, List.append_nil]
    split_ifs <;> simp [ok_trace, raise_trace, Event.isBackwardData]


theorem C6_backward_independence_witness :
    (CUDNNConvGradOpKernel.Compute (vendor_ok 0 32 48)
      { conv_ctx 1 1 0 with FilterGrad := none }).trace.countP Event.isBackwardWeights = 0 ∧
    (CUDNNConvGradOpKernel.Compute (vendor_ok 0 32 48)
      { conv_ctx 1 1 0 with InputGrad := none }).trace.countP Event.isBackwardData = 0 :=
  ⟨(C6_backward_independence (vendor_ok 0 32 48) { conv_ctx 1 1 0 with FilterGrad := none }).1 rfl,
    (C6_backward_independence (vendor_ok 0 32 48) { conv_ctx 1 1 0 with InputGrad := none }).2 rfl⟩

set_option maxHeartbeats 4000000 in
/-- C10: in every forward and backward invocation on the accelerator the vendor
group-count primitive is called exactly once, with the caller's `groups`; every descriptor
is built with group count 1; every pointer handed to a find-algorithm query or compute call
has element offset 0; and an invocation that completes has run, per requested direction,
exactly one find-algorithm query followed by one compute call. -/
theorem C10_groups_folded (lib : MIOpen) (ctx : ExecutionContext)
    (hplace : ctx.is_gpu_place = true) :
    ((CUDNNConvOpKernel.Compute lib ctx).trace.filter Event.isSetGroupCount =
        [Event.SetConvolutionGroupCount ctx.groups] ∧
      (∀ e ∈ (CUDNNConvOpKernel.Compute lib ctx).trace, ∀ g,
        e.descriptorGroups = some g → g = 1) ∧
      (lib.SetConvolutionGroupCount ctx.groups = miopenStatusSuccess →
        (CUDNNConvOpKernel.Compute lib ctx).trace.filterMap Event.descriptorGroups =
          [1, 1, 1]) ∧
      (∀ e ∈ (CUDNNConvOpKernel.Compute lib ctx).trace, ∀ o ∈ e.offsets, o = 0) ∧
      ((CUDNNConvOpKernel.Compute lib ctx).result = Except.ok () →
        (CUDNNConvOpKernel.Compute lib ctx).trace.filter (fun e => e.isFind || e.isCompute) =
          [Event.FindConvolutionForwardAlgorithm 0 0 0 1
              lib.ConvolutionForwardGetWorkSpaceSize.2,
            Event.ConvolutionForward 0 0 0 (lib.FindConvolutionForwardAlgorithm 0).2.fwd_algo
              lib.ConvolutionForwardGetWorkSpaceSize.2])) ∧
    ((CUDNNConvGradOpKernel.Compute lib ctx).trace.filter Event.isSetGroupCount =
        [Event.SetConvolutionGroupCount ctx.groups] ∧
      (∀ e ∈ (CUDNNConvGradOpKernel.Compute lib ctx).trace, ∀ g,
        e.descriptorGroups = some g → g = 1) ∧
      (lib.SetConvolutionGroupCount ctx.groups = miopenStatusSuccess →
        (CUDNNConvGradOpKernel.Compute lib ctx).trace.filterMap Event.descriptorGroups =
          [1, 1, 1]) ∧
      (∀ e ∈ (CUDNNConvGradOpKernel.Compute lib ctx).trace, ∀ o ∈ e.offsets, o = 0) ∧
      ((CUDNNConvGradOpKernel.Compute lib ctx).result = Except.ok () →
        (CUDNNConvGradOpKernel.Compute lib ctx).trace.filter
            (fun e => e.isFind || e.isCompute) =
          (if ctx.InputGrad.isSome then
              CUDNNConvGradOpKernel.data_events lib (backward_requirement lib ctx)
            else []) ++
          (if ctx.FilterGrad.isSome then
              CUDNNConvGradOpKernel.weights_events lib (backward_requirement lib ctx)
            else []))) := by
  constructor
  · generalize hT : CUDNNConvOpKernel.Compute lib ctx = T
    rw [forward_eq] at hT
    generalize CUDNNConvOpKernel.workspace_size_limit ctx.workspace_size_MB = L at hT
    simp only [hplace, if_true, miopenStatusSuccess] at hT ⊢
    split_ifs at hT <;> subst hT <;>
      simp [*, ok_trace, raise_trace, ok_result, raise_result, CUDNNConvOpKernel.sized,
        Event.isSetGroupCount, Event.descriptorGroups, Event.offsets, Event.isFind,
        Event.isCompute]
  · generalize hT : CUDNNConvGradOpKernel.Compute lib ctx = T
    rw [backward_eq, required_size_eq] at hT
    generalize CUDNNConvGradOpKernel.workspace_size_limit ctx.workspace_size_MB = L at hT
    simp only [hplace, if_true, miopenStatusSuccess, backward_requirement] at hT ⊢
    cases hI : ctx.InputGrad.isSome <;> cases hF : ctx.FilterGrad.isSome
    all_goals
      simp only [Bool.false_eq_true, if_true, if_false, bind_ok, bind_raise,
        bind_ite_K, after_ite, after_ok, after_raise, after_after, after_nil, execute_eq, hI, hF,
        Nat.zero_max, Nat.max_zero, max_self] at hT ⊢
      split_ifs at hT <;> subst hT <;>
        simp [*, ok_trace, raise_trace, ok_result, raise_result,
          CUDNNConvGradOpKernel.described, CUDNNConvGradOpKernel.data_events,
          CUDNNConvGradOpKernel.weights_events,
          Event.isSetGroupCount, Event.descriptorGroups, Event.offsets, Event.isFind,
          Event.isCompute]


theorem C10_groups_folded_witness :
    (conv_ctx 1 2 0).is_gpu_place = true ∧
    (CUDNNConvOpKernel.Compute (vendor_ok 64 32 48) (conv_ctx 1 2 0)).trace.filter
      Event.isSetGroupCount = [Event.SetConvolutionGroupCount 2] ∧
    (CUDNNConvGradOpKernel.Compute (vendor_ok 64 32 48) (conv_ctx 1 2 0)).trace.filter
      Event.isSetGroupCount = [Event.SetConvolutionGroupCount 2] :=
  ⟨rfl, (C10_groups_folded (vendor_ok 64 32 48) (conv_ctx 1 2 0) rfl).1.1,
    (C10_groups_folded (vendor_ok 64 32 48) (conv_ctx 1 2 0) rfl).2.1⟩

/-- C9 (as stated, refuted): with a find-algorithm query that reports a workspace usage of
7 bytes and an allocated workspace of 64 bytes, the forward compute call is handed 64, not
the usage reported by the query. -/
theorem C9_reported_usage_counterexample :
    Event.ConvolutionForward 0 0 0 1 64 ∈
      (CUDNNConvOpKernel.Compute (vendor_ok 64 32 48) (conv_ctx 1 1 0)).trace ∧
    ((vendor_ok 64 32 48).FindConvolutionForwardAlgorithm 0).2.memory = 7 ∧
    ¬ (∀ e ∈ (CUDNNConvOpKernel.Compute (vendor_ok 64 32 48) (conv_ctx 1 1 0)).trace,
        e.isCompute = true →
        e.workSpaceSize = some ((vendor_ok 64 32 48).FindConvolutionForwardAlgorithm 0).2.memory) := by
  rw [forward_eq]
  simp [vendor_ok, conv_ctx, limit_forward_default, ok_trace, CUDNNConvOpKernel.sized,
    Event.isCompute, Event.workSpaceSize]

set_option maxHeartbeats 4000000 in
/-- C9 (amended): every find-algorithm query of the forward and of the backward kernel
requests exactly one candidate, and every compute call is immediately preceded by the
find-algorithm query of its direction on the same pointers; it is given the algorithm
returned by that query, and as workspace size the size of the allocated workspace, which
is also the size handed to the query. -/
theorem C9_find_then_compute (lib : MIOpen) (ctx : ExecutionContext) :
    ((∀ e ∈ (CUDNNConvOpKernel.Compute lib ctx).trace, ∀ n,
        e.requestAlgoCount = some n → n = 1) ∧
      (∀ x w y a ws,
        Event.ConvolutionForward x w y a ws ∈ (CUDNNConvOpKernel.Compute lib ctx).trace →
        [Event.FindConvolutionForwardAlgorithm x w y 1 ws,
          Event.ConvolutionForward x w y a ws] <:+:
            (CUDNNConvOpKernel.Compute lib ctx).trace ∧
        a = (lib.FindConvolutionForwardAlgorithm 0).2.fwd_algo ∧
        allocs (CUDNNConvOpKernel.Compute lib ctx).trace = [ws])) ∧
    ((∀ e ∈ (CUDNNConvGradOpKernel.Compute lib ctx).trace, ∀ n,
        e.requestAlgoCount = some n → n = 1) ∧
      (∀ dy w dx a ws,
        Event.ConvolutionBackwardData dy w dx a ws ∈
          (CUDNNConvGradOpKernel.Compute lib ctx).trace →
        [Event.FindConvolutionBackwardDataAlgorithm dy w dx 1 ws,
          Event.ConvolutionBackwardData dy w dx a ws] <:+:
            (CUDNNConvGradOpKernel.Compute lib ctx).trace ∧
        a = (lib.FindConvolutionBackwardDataAlgorithm 0).2.bwd_data_algo ∧
        allocs (CUDNNConvGradOpKernel.Compute lib ctx).trace = [ws]) ∧
      (∀ dy x dw a ws,
        Event.ConvolutionBackwardWeights dy x dw a ws ∈
          (CUDNNConvGradOpKernel.Compute lib ctx).trace →
        [Event.FindConvolutionBackwardWeightsAlgorithm dy x dw 1 ws,
          Event.ConvolutionBackwardWeights dy x dw a ws] <:+:
            (CUDNNConvGradOpKernel.Compute lib ctx).trace ∧
        a = (lib.FindConvolutionBackwardWeightsAlgorithm 0).2.bwd_weights_algo ∧
        allocs (CUDNNConvGradOpKernel.Compute lib ctx).trace = [ws])) := by
  constructor
  · generalize hT : CUDNNConvOpKernel.Compute lib ctx = T
    rw [forward_eq] at hT
    generalize CUDNNConvOpKernel.workspace_size_limit ctx.workspace_size_MB = L at hT
    split_ifs at hT <;> subst hT <;>
      simp [ok_trace, raise_trace, CUDNNConvOpKernel.sized, Event.requestAlgoCount, allocs,
        List.infix_cons_iff, List.cons_prefix_cons]
    all_goals
      intro x w y a ws hx hw hy ha hws
      subst hx hw hy ha hws
      simp
  · generalize hT : CUDNNConvGradOpKernel.Compute lib ctx = T
    rw [backward_eq, required_size_eq] at hT
    generalize CUDNNConvGradOpKernel.workspace_size_limit ctx.workspace_size_MB = L at hT
    cases hI : ctx.InputGrad.isSome <;> cases hF : ctx.FilterGrad.isSome
    all_goals
      simp only [Bool.false_eq_true, if_true, if_false, bind_ok, bind_raise,
        bind_ite_K, after_ite, after_ok, after_raise, after_after, after_nil, execute_eq, hI, hF,
        Nat.zero_max, Nat.max_zero, max_self] at hT
      split_ifs at hT <;> subst hT <;>
        simp [ok_trace, raise_trace, CUDNNConvGradOpKernel.described,
          CUDNNConvGradOpKernel.data_events, CUDNNConvGradOpKernel.weights_events,
          Event.requestAlgoCount, allocs, List.infix_cons_iff, List.cons_prefix_cons]
    all_goals try constructor
    all_goals
      intros
      subst_vars
      simp


theorem C9_find_then_compute_witness :
    [Event.FindConvolutionForwardAlgorithm 0 0 0 1 64, Event.ConvolutionForward 0 0 0 1 64] <:+:
      (CUDNNConvOpKernel.Compute (vendor_ok 64 32 48) (conv_ctx 1 1 0)).trace ∧
    allocs (CUDNNConvOpKernel.Compute (vendor_ok 64 32 48) (conv_ctx 1 1 0)).trace = [64] := by
  have hm : Event.ConvolutionForward 0 0 0 1 64 ∈
      (CUDNNConvOpKernel.Compute (vendor_ok 64 32 48) (conv_ctx 1 1 0)).trace := by
    rw [forward_eq]
    simp [vendor_ok, conv_ctx, limit_forward_default, ok_trace, CUDNNConvOpKernel.sized]
  have h := (C9_find_then_compute (vendor_ok 64 32 48) (conv_ctx 1 1 0)).1.2 0 0 0 1 64 hm
  exact ⟨h.1, h.2.2⟩

/-! ## Grouped execution -/

theorem toInt32_eq (x : Int) (hlo : -2147483648 ≤ x) (hhi : x < 2147483648) : toInt32 x = x := by
  unfold toInt32
  omega

theorem stride_inner (c h w : Int) (hc : 1 ≤ c) (hh : 1 ≤ h) (hw : 1 ≤ w)
    (hfit : c * h * w < 2147483648) :
    toInt32 (toInt32 (Int.tdiv (toInt32 c) 1 * toInt32 h) * toInt32 w) = c * h * w := by
  have hch : c * h ≤ c * h * w := le_mul_of_one_le_right (by positivity) hw
  have hc' : c ≤ c * h := le_mul_of_one_le_right (by positivity) hh
  have hh' : h ≤ c * h := le_mul_of_one_le_left (by positivity) hc
  have hw' : w ≤ c * h * w := le_mul_of_one_le_left (by positivity) (by nlinarith)
  rw [toInt32_eq c (by omega) (by omega), toInt32_eq h (by omega) (by omega),
    toInt32_eq w (by omega) (by omega), Int.tdiv_one, toInt32_eq (c * h) (by omega) (by omega),
    toInt32_eq (c * h * w) (by omega) (by omega)]

theorem stride_2d (c h w : Int) (hc : 1 ≤ c) (hh : 1 ≤ h) (hw : 1 ≤ w)
    (hfit : c * h * w < 2147483648) :
    toInt32 (toInt32 (toInt32 (Int.tdiv (toInt32 c) 1 * toInt32 h) * toInt32 w) * 1) =
      c * h * w := by
  have h0 : 0 ≤ c * h * w := by positivity
  rw [stride_inner c h w hc hh hw hfit, mul_one, toInt32_eq (c * h * w) (by omega) (by omega)]

theorem stride_3d (c d h w : Int) (hc : 1 ≤ c) (hd : 1 ≤ d) (hh : 1 ≤ h) (hw : 1 ≤ w)
    (hfit : c * h * w * d < 2147483648) :
    toInt32 (toInt32 (toInt32 (Int.tdiv (toInt32 c) 1 * toInt32 h) * toInt32 w) * toInt32 d) =
      c * h * w * d := by
  have hpos : 1 ≤ c * h * w := by nlinarith [mul_pos (by omega : 0 < c) (by omega : 0 < h)]
  have hchw : c * h * w ≤ c * h * w * d := le_mul_of_one_le_right (by positivity) hd
  have hd' : d ≤ c * h * w * d := le_mul_of_one_le_left (by positivity) hpos
  have h0 : 0 ≤ c * h * w * d := by positivity
  rw [stride_inner c h w hc hh hw (by omega), toInt32_eq d (by omega) (by omega),
    toInt32_eq (c * h * w * d) (by omega) (by omega)]

theorem forward_ok_counts (lib : MIOpen) (ctx : ExecutionContext)
    (hok : (CUDNNConvOpKernel.Compute lib ctx).result = Except.ok ()) :
    (CUDNNConvOpKernel.Compute lib ctx).trace.countP Event.isFind = 1 ∧
    (CUDNNConvOpKernel.Compute lib ctx).trace.countP Event.isCompute = 1 := by
  generalize hT : CUDNNConvOpKernel.Compute lib ctx = T at hok ⊢
  rw [forward_eq] at hT
  generalize CUDNNConvOpKernel.workspace_size_limit ctx.workspace_size_MB = L at hT
  split_ifs at hT <;> subst hT <;>
    simp [ok_trace, raise_result, CUDNNConvOpKernel.sized, Event.isFind, Event.isCompute] at hok ⊢

theorem forward_offset_in_2d (ctx : ExecutionContext) (n c h w : Int)
    (hdims : ctx.Input.dims = [n, c, h, w]) (hc : 1 ≤ c) (hh : 1 ≤ h) (hw : 1 ≤ w)
    (hfit : c * h * w < 2147483648) :
    (CUDNNConvOpKernel.layout ctx).group_offset_in = c * h * w := by
  simp only [CUDNNConvOpKernel.layout, CUDNNConvOpKernel.group_offset_in, Tensor.dim, hdims,
    List.length_cons, List.length_nil, List.getD_cons_succ, List.getD_cons_zero]
  rw [if_neg (by decide), if_neg (by decide), if_neg (by decide)]
  exact stride_2d c h w hc hh hw hfit

theorem forward_offset_in_3d (ctx : ExecutionContext) (n c d h w : Int)
    (hdims : ctx.Input.dims = [n, c, d, h, w]) (hc : 1 ≤ c) (hd : 1 ≤ d) (hh : 1 ≤ h)
    (hw : 1 ≤ w) (hfit : c * h * w * d < 2147483648) :
    (CUDNNConvOpKernel.layout ctx).group_offset_in = c * h * w * d := by
  simp only [CUDNNConvOpKernel.layout, CUDNNConvOpKernel.group_offset_in, Tensor.dim, hdims,
    List.length_cons, List.length_nil, List.getD_cons_succ, List.getD_cons_zero]
  rw [if_pos (by decide), if_pos (by decide), if_pos (by decide)]
  exact stride_3d c d h w hc hd hh hw hfit

theorem forward_offset_out_2d (ctx : ExecutionContext) (n k h w : Int)
    (hdims : ctx.Output.dims = [n, k, h, w]) (hfilter : ctx.Filter.dim 0 = k) (hk : 1 ≤ k)
    (hh : 1 ≤ h) (hw : 1 ≤ w) (hfit : k * h * w < 2147483648) :
    (CUDNNConvOpKernel.layout ctx).group_offset_out = k * h * w := by
  simp only [CUDNNConvOpKernel.layout, CUDNNConvOpKernel.group_offset_out, hfilter]
  simp only [Tensor.dim, hdims,
    List.length_cons, List.length_nil, List.getD_cons_succ, List.getD_cons_zero]
  rw [if_neg (by decide), if_neg (by decide), if_neg (by decide)]
  exact stride_2d k h w hk hh hw hfit

theorem forward_offset_out_3d (ctx : ExecutionContext) (n k d h w : Int)
    (hdims : ctx.Output.dims = [n, k, d, h, w]) (hfilter : ctx.Filter.dim 0 = k) (hk : 1 ≤ k)
    (hd : 1 ≤ d) (hh : 1 ≤ h) (hw : 1 ≤ w) (hfit : k * h * w * d < 2147483648) :
    (CUDNNConvOpKernel.layout ctx).group_offset_out = k * h * w * d := by
  simp only [CUDNNConvOpKernel.layout, CUDNNConvOpKernel.group_offset_out, hfilter]
  simp only [Tensor.dim, hdims,
    List.length_cons, List.length_nil, List.getD_cons_succ, List.getD_cons_zero]
  rw [if_pos (by decide), if_pos (by decide), if_pos (by decide)]
  exact stride_3d k d h w hk hd hh hw hfit

theorem forward_offset_filter (ctx : ExecutionContext) (hlo : -2147483648 ≤ ctx.Filter.numel)
    (hhi : ctx.Filter.numel < 2147483648) :
    (CUDNNConvOpKernel.layout ctx).group_offset_filter = ctx.Filter.numel := by
  simp only [CUDNNConvOpKernel.layout, CUDNNConvOpKernel.group_offset_filter, Int.tdiv_one]
  exact toInt32_eq _ hlo hhi

/-- C8 (as stated, refuted): for a batch of two samples (input `[2, 4, 8, 8]`, groups `1`)
the input stride times the number of group iterations is 256, the input buffer has 512
elements. -/
theorem C8_whole_buffer_counterexample :
    ¬ ((CUDNNConvOpKernel.layout (conv_ctx 2 1 0)).group_offset_in *
        ((CUDNNConvOpKernel.Compute (vendor_ok 64 32 48) (conv_ctx 2 1 0)).trace.countP
          Event.isCompute : Nat) = (conv_ctx 2 1 0).Input.numel) := by
  have hok : (CUDNNConvOpKernel.Compute (vendor_ok 64 32 48) (conv_ctx 2 1 0)).result =
      Except.ok () := by
    rw [forward_eq]
    simp [vendor_ok, conv_ctx, limit_forward_default, ok_result]
  rw [(forward_ok_counts _ _ hok).2,
    forward_offset_in_2d (conv_ctx 2 1 0) 2 4 8 8 rfl (by norm_num) (by norm_num) (by norm_num)
      (by norm_num)]
  simp [conv_ctx, Tensor.numel]


/-- C8 (amended): in every forward invocation that completes, for every group count, the
kernel performs one group iteration; for 4-D and 5-D shapes with positive extents whose
per-sample element counts fit a 32-bit `int`, the input and output strides times the
number of iterations equal the element count of one batch sample (times the batch size:
the element count of the whole buffer), and the filter stride times the number of
iterations equals the element count of the filter. -/
theorem C8_group_strides (lib : MIOpen) (ctx : ExecutionContext)
    (hok : (CUDNNConvOpKernel.Compute lib ctx).result = Except.ok ())
    (hflo : -2147483648 ≤ ctx.Filter.numel) (hfhi : ctx.Filter.numel < 2147483648) :
    (CUDNNConvOpKernel.Compute lib ctx).trace.countP Event.isCompute = 1 ∧
    (CUDNNConvOpKernel.layout ctx).group_offset_filter *
        ((CUDNNConvOpKernel.Compute lib ctx).trace.countP Event.isCompute : Nat) =
      ctx.Filter.numel ∧
    (∀ n c h w m k oh ow : Int,
      ctx.Input.dims = [n, c, h, w] → ctx.Output.dims = [m, k, oh, ow] →
      ctx.Filter.dim 0 = k →
      1 ≤ c ∧ 1 ≤ h ∧ 1 ≤ w ∧ c * h * w < 2147483648 →
      1 ≤ k ∧ 1 ≤ oh ∧ 1 ≤ ow ∧ k * oh * ow < 2147483648 →
      (CUDNNConvOpKernel.layout ctx).group_offset_in *
          ((CUDNNConvOpKernel.Compute lib ctx).trace.countP Event.isCompute : Nat) =
        c * h * w ∧
      (CUDNNConvOpKernel.layout ctx).group_offset_in *
          ((CUDNNConvOpKernel.Compute lib ctx).trace.countP Event.isCompute : Nat) * n =
        ctx.Input.numel ∧
      (CUDNNConvOpKernel.layout ctx).group_offset_out *
          ((CUDNNConvOpKernel.Compute lib ctx).trace.countP Event.isCompute : Nat) =
        k * oh * ow ∧
      (CUDNNConvOpKernel.layout ctx).group_offset_out *
          ((CUDNNConvOpKernel.Compute lib ctx).trace.countP Event.isCompute : Nat) * m =
        ctx.Output.numel) ∧
    (∀ n c d h w m k od oh ow : Int,
      ctx.Input.dims = [n, c, d, h, w] → ctx.Output.dims = [m, k, od, oh, ow] →
      ctx.Filter.dim 0 = k →
      1 ≤ c ∧ 1 ≤ d ∧ 1 ≤ h ∧ 1 ≤ w ∧ c * h * w * d < 2147483648 →
      1 ≤ k ∧ 1 ≤ od ∧ 1 ≤ oh ∧ 1 ≤ ow ∧ k * oh * ow * od < 2147483648 →
      (CUDNNConvOpKernel.layout ctx).group_offset_in *
          ((CUDNNConvOpKernel.Compute lib ctx).trace.countP Event.isCompute : Nat) =
        c * (d * h * w) ∧
      (CUDNNConvOpKernel.layout ctx).group_offset_in *
          ((CUDNNConvOpKernel.Compute lib ctx).trace.countP Event.isCompute : Nat) * n =
        ctx.Input.numel ∧
      (CUDNNConvOpKernel.layout ctx).group_offset_out *
          ((CUDNNConvOpKernel.Compute lib ctx).trace.countP Event.isCompute : Nat) =
        k * (od * oh * ow) ∧
      (CUDNNConvOpKernel.layout ctx).group_offset_out *
          ((CUDNNConvOpKernel.Compute lib ctx).trace.countP Event.isCompute : Nat) * m =
        ctx.Output.numel) := by
  have hit := (forward_ok_counts lib ctx hok).2
  rw [hit]
  refine ⟨rfl, ?_, ?_, ?_⟩
  · rw [forward_offset_filter ctx hflo hfhi]
    simp
  · intro n c h w m k oh ow hin hout hk hci hco
    rw [forward_offset_in_2d ctx n c h w hin hci.1 hci.2.1 hci.2.2.1 hci.2.2.2,
      forward_offset_out_2d ctx m k oh ow hout hk hco.1 hco.2.1 hco.2.2.1 hco.2.2.2]
    simp only [Tensor.numel, hin, hout, List.prod_cons, List.prod_nil, Nat.cast_one, mul_one]
    refine ⟨trivial, ?_, trivial, ?_⟩ <;> ring
  · intro n c d h w m k od oh ow hin hout hk hci hco
    rw [forward_offset_in_3d ctx n c d h w hin hci.1 hci.2.1 hci.2.2.1 hci.2.2.2.1 hci.2.2.2.2,
      forward_offset_out_3d ctx m k od oh ow hout hk hco.1 hco.2.1 hco.2.2.1 hco.2.2.2.1
        hco.2.2.2.2]
    simp only [Tensor.numel, hin, hout, List.prod_cons, List.prod_nil, Nat.cast_one, mul_one]
    refine ⟨?_, ?_, ?_, ?_⟩ <;> ring

theorem C8_group_strides_witness :
    (CUDNNConvOpKernel.Compute (vendor_ok 64 32 48) (conv_ctx 2 1 0)).result = Except.ok () ∧
    (CUDNNConvOpKernel.layout (conv_ctx 2 1 0)).group_offset_in *
        ((CUDNNConvOpKernel.Compute (vendor_ok 64 32 48) (conv_ctx 2 1 0)).trace.countP
          Event.isCompute : Nat) * 2 = (conv_ctx 2 1 0).Input.numel := by
  have hok : (CUDNNConvOpKernel.Compute (vendor_ok 64 32 48) (conv_ctx 2 1 0)).result =
      Except.ok () := by
    rw [forward_eq]
    simp [vendor_ok, conv_ctx, limit_forward_default, ok_result]
  have hn : (conv_ctx 2 1 0).Filter.numel = 288 := by
    simp [conv_ctx, Tensor.numel]
  exact ⟨hok, ((C8_group_strides (vendor_ok 64 32 48) (conv_ctx 2 1 0) hok (by rw [hn]; norm_num)
    (by rw [hn]; norm_num)).2.2.1 2 4 8 8 2 8 8 8 rfl rfl rfl (by norm_num) (by norm_num)).2.1⟩

/-- C7 (as stated, refuted): with `groups = 2`, 4 input channels and 8 output channels the
forward trace does not hold two find-algorithm/compute pairs, and the input stride is not
`2 * spatial_volume`. -/
theorem C7_two_iterations_counterexample :
    ¬ ((CUDNNConvOpKernel.Compute (vendor_ok 64 32 48) (conv_ctx 1 2 0)).trace.countP
          Event.isFind = 2 ∧
        (CUDNNConvOpKernel.Compute (vendor_ok 64 32 48) (conv_ctx 1 2 0)).trace.countP
          Event.isCompute = 2 ∧
        (CUDNNConvOpKernel.layout (conv_ctx 1 2 0)).group_offset_in = 2 * (1 * 8 * 8)) := by
  have hok : (CUDNNConvOpKernel.Compute (vendor_ok 64 32 48) (conv_ctx 1 2 0)).result =
      Except.ok () := by
    rw [forward_eq]
    simp [vendor_ok, conv_ctx, limit_forward_default, ok_result]
  rw [(forward_ok_counts _ _ hok).1]
  simp

/-- C7 (amended): in a forward invocation with `groups = 2` that completes, the group count
2 is handed to the vendor group-count primitive and the execution loop performs one
iteration (one find-algorithm/compute pair) with every pointer at element offset 0; with 4
input channels and 8 output channels that iteration covers all of them: the input stride
the kernel computes is `4 * spatial_volume` and the output stride `8 * spatial_volume` of
the output (depth 1 for 4-D tensors). -/
theorem C7_single_iteration (lib : MIOpen) (ctx : ExecutionContext)
    (hgroups : ctx.groups = 2)
    (hok : (CUDNNConvOpKernel.Compute lib ctx).result = Except.ok ()) :
    (CUDNNConvOpKernel.Compute lib ctx).trace.filter Event.isSetGroupCount =
      [Event.SetConvolutionGroupCount 2] ∧
    (CUDNNConvOpKernel.Compute lib ctx).trace.countP Event.isFind = 1 ∧
    (CUDNNConvOpKernel.Compute lib ctx).trace.countP Event.isCompute = 1 ∧
    (∀ e ∈ (CUDNNConvOpKernel.Compute lib ctx).trace, ∀ o ∈ e.offsets, o = 0) ∧
    (∀ n h w m oh ow : Int,
      ctx.Input.dims = [n, 4, h, w] → ctx.Output.dims = [m, 8, oh, ow] →
      ctx.Filter.dim 0 = 8 →
      1 ≤ h ∧ 1 ≤ w ∧ 4 * h * w < 2147483648 → 1 ≤ oh ∧ 1 ≤ ow ∧ 8 * oh * ow < 2147483648 →
      (CUDNNConvOpKernel.layout ctx).group_offset_in = 4 * (1 * h * w) ∧
      (CUDNNConvOpKernel.layout ctx).group_offset_out = 8 * (1 * oh * ow)) ∧
    (∀ n d h w m od oh ow : Int,
      ctx.Input.dims = [n, 4, d, h, w] → ctx.Output.dims = [m, 8, od, oh, ow] →
      ctx.Filter.dim 0 = 8 →
      1 ≤ d ∧ 1 ≤ h ∧ 1 ≤ w ∧ 4 * h * w * d < 2147483648 →
      1 ≤ od ∧ 1 ≤ oh ∧ 1 ≤ ow ∧ 8 * oh * ow * od < 2147483648 →
      (CUDNNConvOpKernel.layout ctx).group_offset_in = 4 * (d * h * w) ∧
      (CUDNNConvOpKernel.layout ctx).group_offset_out = 8 * (od * oh * ow)) := by
  refine ⟨?_, (forward_ok_counts lib ctx hok).1, (forward_ok_counts lib ctx hok).2, ?_, ?_, ?_⟩
  · generalize hT : CUDNNConvOpKernel.Compute lib ctx = T at hok ⊢
    rw [forward_eq] at hT
    generalize CUDNNConvOpKernel.workspace_size_limit ctx.workspace_size_MB = L at hT
    split_ifs at hT <;> subst hT <;>
      simp [ok_trace, raise_result, CUDNNConvOpKernel.sized, Event.isSetGroupCount,
        hgroups] at hok ⊢
  · generalize hT : CUDNNConvOpKernel.Compute lib ctx = T
    rw [forward_eq] at hT
    generalize CUDNNConvOpKernel.workspace_size_limit ctx.workspace_size_MB = L at hT
    split_ifs at hT <;> subst hT <;>
      simp [ok_trace, raise_trace, CUDNNConvOpKernel.sized, Event.offsets]
  · intro n h w m oh ow hin hout hk hci hco
    rw [forward_offset_in_2d ctx n 4 h w hin (by norm_num) hci.1 hci.2.1 hci.2.2,
      forward_offset_out_2d ctx m 8 oh ow hout hk (by norm_num) hco.1 hco.2.1 hco.2.2]
    constructor <;> ring
  · intro n d h w m od oh ow hin hout hk hci hco
    rw [forward_offset_in_3d ctx n 4 d h w hin (by norm_num) hci.1 hci.2.1 hci.2.2.1 hci.2.2.2,
      forward_offset_out_3d ctx m 8 od oh ow hout hk (by norm_num) hco.1 hco.2.1 hco.2.2.1
        hco.2.2.2]
    constructor <;> ring

theorem C7_single_iteration_witness :
    (conv_ctx 1 2 0).groups = 2 ∧
    (CUDNNConvOpKernel.Compute (vendor_ok 64 32 48) (conv_ctx 1 2 0)).trace.countP
      Event.isCompute = 1 ∧
    (CUDNNConvOpKernel.layout (conv_ctx 1 2 0)).group_offset_in = 4 * (1 * 8 * 8) := by
  have hok : (CUDNNConvOpKernel.Compute (vendor_ok 64 32 48) (conv_ctx 1 2 0)).result =
      Except.ok () := by
    rw [forward_eq]
    simp [vendor_ok, conv_ctx, limit_forward_default, ok_result]
  have h := C7_single_iteration (vendor_ok 64 32 48) (conv_ctx 1 2 0) rfl hok
  exact ⟨rfl, h.2.2.1, (h.2.2.2.2.1 1 8 8 1 8 8 rfl rfl rfl (by norm_num) (by norm_num)).1⟩


end paddle.operators
